import Mathlib

/-!
Shallow embedding of the `data-cleaner` library's fake-data synthesis and
file-type checking code, together with proofs of the specification's claims.

The embedded source files are:
  * `src/main/utils/file_random/schema.py`  (value-type enumeration)
  * `src/main/utils/file_random/helpers.py` (header/row/value generation)
  * `src/main/utils/file_loader/schema.py`  (supported file types)
  * `src/main/utils/file_loader/helpers.py` (extension check, load/write)
  * `src/main/classes/data_cleaner.py`      (public wrappers, config merge)

Randomness (the `faker` library and Python's `random` module) is modelled by
an explicit oracle `FakerOracle`: each primitive draw is a stream indexed by
a draw counter, so every embedded function is a pure function of its inputs
and the oracle.  The unbounded redraw loop in `generate_fake_headers`
(redraw a candidate key until it is fresh) is modelled with explicit fuel
and returns `Option`; `none` means the fuel bound was hit.

Python `dict`s are insertion-ordered, so a header map is embedded as an
association list `List (String × SupportedValueType)` in insertion order.
-/

/-- Embeds `SupportedValueType` from `src/main/utils/file_random/schema.py`:
the enumeration of column value-type tags. -/
inductive SupportedValueType where
  | string
  | int
  | float
  | boolean
  | date
  | name
  | email
  | password
  | username
  | color
  | uuid
deriving Repr, DecidableEq

/-- Embeds `SUPPORTED_VALUE_TYPES` from `src/main/utils/file_random/schema.py`,
in the source's list order. -/
def SUPPORTED_VALUE_TYPES : List SupportedValueType :=
  [.boolean, .color, .date, .email, .float, .int, .name, .password,
   .string, .username, .uuid]

/-- A header map: a Python `dict[str, SupportedValueType]` in insertion
order, embedded as an association list. -/
abbrev Headers := List (String × SupportedValueType)

/-- Membership test `key in d` on a Python dict. -/
def dictContains (m : Headers) (k : String) : Bool :=
  m.any (fun p => p.1 == k)

/-- Python dict assignment `d[k] = v`: update in place (keeping the key's
position) when the key exists, otherwise append at the end. -/
def dictInsert (m : Headers) (k : String) (v : SupportedValueType) : Headers :=
  if dictContains m k then
    m.map (fun p => if p.1 == k then (k, v) else p)
  else
    m ++ [(k, v)]

/-- A Python value produced by the fake-value generator (bool, str, int,
or float; floats are modelled as rationals). -/
inductive PyValue where
  | bool (b : Bool)
  | str (s : String)
  | int (n : Int)
  | float (q : Rat)
deriving Repr, DecidableEq

/-- A row: `List[int | str | bool | float]`. -/
abbrev Row := List PyValue

/-- The oracle standing for the global `faker.Faker()` instance and
Python's `random` module.  Each field is one primitive draw, indexed by a
draw counter so that distinct calls may yield distinct values. -/
structure FakerOracle where
  boolean : Nat → Bool
  color_name : Nat → String
  date : Nat → String
  email : Nat → String
  name : Nat → String
  password : Nat → String
  word : Nat → String
  user_name : Nat → String
  uuid4 : Nat → String
  random : Nat → Rat
  randint : Nat → Int → Int → Int
  choice : Nat → Nat

/-- Embeds `ConfigType` from `src/main/utils/file_random/helpers.py`: the fully
resolved numeric-generation config (all three fields required). -/
structure ConfigType where
  decimal_places : Int
  min_int : Int
  max_int : Int
deriving Repr, DecidableEq

/-- Python's `round(x, n)` on the rationals standing in for floats
(decimal rounding to `n` places; the claims never inspect the value). -/
def roundRat (q : Rat) (dp : Int) : Rat :=
  if 0 ≤ dp then
    ((round (q * (10 : Rat) ^ dp.toNat) : Int) : Rat) / (10 : Rat) ^ dp.toNat
  else
    ((round (q / (10 : Rat) ^ (-dp).toNat) : Int) : Rat) * (10 : Rat) ^ (-dp).toNat

namespace file_random

/-- Embeds `generate_fake_value` from `src/main/utils/file_random/helpers.py`:
dispatch on the value-type tag to one faker / `random` draw.  `i` is the
draw counter threaded by the caller. -/
def generate_fake_value (ω : FakerOracle) (i : Nat)
    (value_type : SupportedValueType) (config : ConfigType) : PyValue :=
  match value_type with
  | .boolean => .bool (ω.boolean i)
  | .color => .str (ω.color_name i)
  | .date => .str (ω.date i)
  | .email => .str (ω.email i)
  | .float => .float (roundRat (ω.random i) config.decimal_places)
  | .int => .int (ω.randint i config.min_int config.max_int)
  | .name => .str (ω.name i)
  | .password => .str (ω.password i)
  | .string => .str (ω.word i)
  | .username => .str (ω.user_name i)
  | .uuid => .str (ω.uuid4 i)

/-- The inner redraw loop of `generate_fake_headers`:
`key = fake_generator.word()` followed by
`while key in config_headers: key = fake_generator.word()`.
`widx` is the word-draw counter; `fuel` bounds the number of draws.
Returns the fresh key and the advanced counter. -/
def pickFresh (ω : FakerOracle) (m : Headers) :
    Nat → Nat → Option (String × Nat)
  | 0, _ => none
  | fuel + 1, widx =>
    let key := ω.word widx
    if dictContains m key then pickFresh ω m fuel (widx + 1)
    else some (key, widx + 1)

/-- The outer `while needed_count != 0` loop of `generate_fake_headers`:
repeat `needed` times — draw a fresh key, draw a value type with
`random.choice(SUPPORTED_VALUE_TYPES)` (modelled as an oracle index into
the list), insert. `widx`/`tidx` are the word / choice draw counters. -/
def fillHeaders (ω : FakerOracle) (fuel : Nat) :
    Nat → Nat → Nat → Headers → Option Headers
  | 0, _, _, m => some m
  | needed + 1, widx, tidx, m =>
    match pickFresh ω m fuel widx with
    | none => none
    | some (key, widx') =>
      let value :=
        SUPPORTED_VALUE_TYPES.getD (ω.choice tidx % SUPPORTED_VALUE_TYPES.length)
          .uuid
      fillHeaders ω fuel needed widx' (tidx + 1) (dictInsert m key value)

/-- Embeds `generate_fake_headers` from `src/main/utils/file_random/helpers.py`:
`needed_count = total_columns - len(default_headers)`; when positive, fill
in that many fresh randomly-typed columns, else return the defaults. -/
def generate_fake_headers (ω : FakerOracle) (fuel : Nat)
    (total_columns : Int) (default_headers : Headers) : Option Headers :=
  let needed_count := total_columns - default_headers.length
  if 0 < needed_count then
    fillHeaders ω fuel needed_count.toNat 0 0 default_headers
  else
    some default_headers

/-- One generated row of `generate_fake_rows`:
`[generate_fake_value(t, config) for t in header_types]`, for row number
`r`; the draw counter of column `c` is `r * len(header_types) + c`. -/
def fakeRow (ω : FakerOracle) (config : ConfigType)
    (header_types : List SupportedValueType) (r : Nat) : Row :=
  header_types.enum.map
    (fun p => generate_fake_value ω (r * header_types.length + p.1) p.2 config)

/-- Embeds `generate_fake_rows` from `src/main/utils/file_random/helpers.py`:
`needed_count = total_rows - len(default_rows)`; when positive, append that
many freshly generated rows (one value per header, in the header map's
insertion order) after the default rows. -/
def generate_fake_rows (ω : FakerOracle) (headers : Headers)
    (default_rows : List Row) (total_rows : Int)
    (value_config : ConfigType) : List Row :=
  let needed_count := total_rows - default_rows.length
  let header_types := headers.map Prod.snd
  if 0 < needed_count then
    default_rows ++
      (List.range needed_count.toNat).map (fakeRow ω value_config header_types)
  else
    default_rows

end file_random

/-- Embeds `FileRandomConfigType` from `src/main/classes/data_cleaner.py`: the
caller-facing partial config (`NotRequired` fields); `none` stands for an
absent (or null) field. -/
structure FileRandomConfigType where
  decimal_places : Option Int := none
  min_int : Option Int := none
  max_int : Option Int := none
deriving Repr, DecidableEq

/-- Python truthiness fallback `x or d` for `x : int | None`: `None` and
`0` are falsy and yield the fallback, every other integer is kept. -/
def pyOrInt (x : Option Int) (d : Int) : Int :=
  match x with
  | none => d
  | some v => if v = 0 then d else v

namespace DataCleaner

/-- Embeds `DataCleaner.DEFAULT_FILE_RANDOM_CONFIG` from
`src/main/classes/data_cleaner.py`. -/
def DEFAULT_FILE_RANDOM_CONFIG : ConfigType :=
  { decimal_places := 3, max_int := 10000, min_int := 0 }

/-- Embeds `DataCleaner.get_file_random_config` from
`src/main/classes/data_cleaner.py`:
`{**cls.DEFAULT_FILE_RANDOM_CONFIG, **(config or {})}` — a dict spread,
so each field present in the override replaces the default and each
absent field falls back, independently per field.  (`config or {}` maps
`None`, and the falsy empty dict, to the all-absent override.) -/
def get_file_random_config (config : Option FileRandomConfigType) : ConfigType :=
  let c := match config with
    | none => (⟨none, none, none⟩ : FileRandomConfigType)
    | some c => c
  { decimal_places := c.decimal_places.getD DEFAULT_FILE_RANDOM_CONFIG.decimal_places
    min_int := c.min_int.getD DEFAULT_FILE_RANDOM_CONFIG.min_int
    max_int := c.max_int.getD DEFAULT_FILE_RANDOM_CONFIG.max_int }

/-- The fully resolved config viewed again as a caller-facing override
(every field of a total `ConfigType` dict is present). -/
def toPartialConfig (c : ConfigType) : FileRandomConfigType :=
  { decimal_places := some c.decimal_places
    min_int := some c.min_int
    max_int := some c.max_int }

/-- Embeds `DataCleaner.generate_fake_headers` from
`src/main/classes/data_cleaner.py`:
`actual_headers = {**default_headers} if default_headers else {}` (a copy;
`None` and the falsy empty dict become `{}`),
`default_total = total_columns or random.randint(0, 5)` (truthiness), then
delegate to the `file_random` helper. -/
def generate_fake_headers (ω : FakerOracle) (fuel : Nat)
    (total_columns : Option Int) (default_headers : Option Headers) :
    Option Headers :=
  let actual_headers : Headers :=
    match default_headers with
    | none => []
    | some d => d
  let default_total := pyOrInt total_columns (ω.randint 0 0 5)
  file_random.generate_fake_headers ω fuel default_total actual_headers

/-- Embeds `DataCleaner.generate_fake_rows` from
`src/main/classes/data_cleaner.py`:
`config_rows = [[*row] for row in default_rows] if default_rows else []`
(a fresh copy of the list and of each row; value-equal to the input),
`default_total = total_rows or random.randint(1, 5)` (truthiness), then
delegate to the `file_random` helper with the resolved value config. -/
def generate_fake_rows (ω : FakerOracle) (headers : Headers)
    (default_rows : Option (List Row)) (total_rows : Option Int)
    (value_config : Option FileRandomConfigType) : List Row :=
  let config_rows : List Row :=
    match default_rows with
    | none => []
    | some rs => rs.map (fun r => r.map (fun v => v))
  let default_total := pyOrInt total_rows (ω.randint 0 1 5)
  file_random.generate_fake_rows ω headers config_rows default_total
    (get_file_random_config value_config)

end DataCleaner

/-- Embeds `SUPPORTED_FILE_TYPES` from `src/main/utils/file_loader/schema.py`. -/
def SUPPORTED_FILE_TYPES : List String := ["csv", "json", "text"]

namespace file_loader

/-- Splits a character list at `'/'` (a structurally recursive stand-in
for the path-component split performed by `pathlib`). -/
def splitSlash : List Char → List (List Char)
  | [] => [[]]
  | ch :: rest =>
    match splitSlash rest, decide (ch = '/') with
    | r, true => [] :: r
    | [], false => [[ch]]
    | g :: gs, false => (ch :: g) :: gs

/-- Models `PurePosixPath(path).name`: the final path component, with
empty and `"."` components dropped by path normalisation. -/
def pathName (path : String) : List Char :=
  let parts := (splitSlash path.toList).filter
    (fun s => s ≠ [] ∧ s ≠ ['.'])
  (parts.getLast?).getD []

/-- Models `PurePosixPath(path).suffix`: with `i` the index of the last
`'.'` of the name, return the slice from `i` when `0 < i < len(name) - 1`,
else the empty string. -/
def pathSuffix (path : String) : List Char :=
  let cs := pathName path
  match ((cs.enum.filter (fun p => p.2 = '.')).getLast?).map Prod.fst with
  | some i => if 0 < i ∧ i < cs.length - 1 then cs.drop i else []
  | none => []

/-- Embeds `file_path.suffix.lower().removeprefix(".")` from
`check_file_support` in `src/main/utils/file_loader/helpers.py`: the
lower-cased extension without its leading dot (lower-casing modelled
per character, which agrees with Python on ASCII extensions). -/
def fileExtension (path : String) : String :=
  let s := (pathSuffix path).map Char.toLower
  match s with
  | '.' :: rest => String.mk rest
  | other => String.mk other

/-- Embeds `check_file_support` from `src/main/utils/file_loader/helpers.py`:
raise `ValueError(f"The file type {file_extension} is not supported")`
when the extension is not a supported file type, else return it. -/
def check_file_support (path : String) : Except String String :=
  let file_extension := fileExtension path
  if ¬ (SUPPORTED_FILE_TYPES.contains file_extension) then
    .error ("The file type " ++ file_extension ++ " is not supported")
  else
    .ok file_extension

/-- Embeds `LoadFileConfigParamType` from
`src/main/utils/file_loader/helpers.py` (all fields optional; the
`orient` literal and `parse_dates` union are carried as strings / a string
list, which is all the embedded code ever does with them). -/
structure LoadFileConfigParamType where
  orient : Option String := none
  parse_dates : Option (List String) := none
  delimiter : Option String := none
deriving Repr, DecidableEq

/-- The pandas call issued by `load_file` (the external collaborator's
input, returned instead of performed). -/
inductive PandasRead where
  | read_json (path : String) (orient : String)
  | read_csv (path : String) (parse_dates : List String) (delimiter : String)
deriving Repr, DecidableEq

/-- Embeds `load_file` from `src/main/utils/file_loader/helpers.py`: resolve the
config with `.get(..., default)`, check the file type, and dispatch to
`pd.read_json` / `pd.read_csv` (modelled as the returned action). -/
def load_file (path : String) (config : Option LoadFileConfigParamType) :
    Except String PandasRead :=
  let actual_config := config.getD ⟨none, none, none⟩
  let actual_config_delimiter := actual_config.delimiter.getD ","
  let actual_config_orient := actual_config.orient.getD "records"
  let actual_config_dates := actual_config.parse_dates.getD []
  match check_file_support path with
  | .error e => .error e
  | .ok file_extension =>
    if file_extension = "json" then
      .ok (.read_json path actual_config_orient)
    else
      .ok (.read_csv path actual_config_dates actual_config_delimiter)

/-- Embeds `WriteFileConfigParamType` from
`src/main/utils/file_loader/helpers.py`. -/
structure WriteFileConfigParamType where
  orient : Option String := none
  delimiter : Option String := none
deriving Repr, DecidableEq

/-- The pandas call issued by `write_file`; `α` is the opaque dataframe
type, passed through untouched. -/
inductive PandasWrite (α : Type) where
  | to_json (path : String) (data : α) (orient : String)
  | to_csv (path : String) (data : α) (sep : String)

/-- Embeds `write_file` from `src/main/utils/file_loader/helpers.py`: resolve the
config, check the file type, and dispatch to `DataFrame.to_json` /
`DataFrame.to_csv` (modelled as the returned action). -/
def write_file {α : Type} (path : String) (data : α)
    (config : Option WriteFileConfigParamType) :
    Except String (PandasWrite α) :=
  let actual_config := config.getD ⟨none, none⟩
  let actual_config_delimiter := actual_config.delimiter.getD ","
  let actual_config_orient := actual_config.orient.getD "records"
  match check_file_support path with
  | .error e => .error e
  | .ok file_path =>
    if file_path = "json" then
      .ok (.to_json path data actual_config_orient)
    else
      .ok (.to_csv path data actual_config_delimiter)

end file_loader

/-!
A small object store for the frame claim about `generate_fake_rows`:
row lists are Python objects with identity, so rows live at addresses in a
store, and the caller's header dict occupies a dedicated slot.  The
embedded wrapper allocates a copy of each supplied row (the source's
`[[*row] for row in default_rows]`) before the helper appends generated
rows, so no pre-existing object is ever written.
-/

/-- The heap: row objects at consecutive addresses, plus the caller's
header dict object. -/
structure RowStore where
  rows : List Row
  headers : Headers

/-- Dereference a row address (out-of-range reads yield `[]`; the claims
always supply valid addresses). -/
def readRow (s : RowStore) (a : Nat) : Row :=
  s.rows.getD a []

/-- Allocate a fresh row object holding `r`; returns its address. -/
def allocRow (s : RowStore) (r : Row) : Nat × RowStore :=
  (s.rows.length, ⟨s.rows ++ [r], s.headers⟩)

/-- Embeds the copy `[[*row] for row in default_rows]`: allocate a fresh copy of each row
object named by `as`, in order. -/
def copyRows : RowStore → List Nat → List Nat × RowStore
  | s, [] => ([], s)
  | s, a :: as =>
    let p := allocRow s (readRow s a)
    let q := copyRows p.2 as
    (p.1 :: q.1, q.2)

/-- Allocate each row value of `rs` as a fresh object, in order. -/
def allocRows : RowStore → List Row → List Nat × RowStore
  | s, [] => ([], s)
  | s, r :: rs =>
    let p := allocRow s r
    let q := allocRows p.2 rs
    (p.1 :: q.1, q.2)

/-- Embeds `DataCleaner.generate_fake_rows` re-embedded over the object store:
copy the supplied rows, resolve the total and the value config, then run
the `file_random.generate_fake_rows` body, allocating each generated row
and appending its address after the copies.  The headers slot of the store
is only ever read (`list(headers.values())`). -/
def DataCleaner.generate_fake_rows_heap (ω : FakerOracle)
    (default_rows : Option (List Nat)) (total_rows : Option Int)
    (value_config : Option FileRandomConfigType) (s : RowStore) :
    List Nat × RowStore :=
  let cp :=
    match default_rows with
    | none => (([] : List Nat), s)
    | some as => copyRows s as
  let config_rows := cp.1
  let default_total := pyOrInt total_rows (ω.randint 0 1 5)
  let value_cfg := DataCleaner.get_file_random_config value_config
  let needed_count := default_total - config_rows.length
  let header_types := cp.2.headers.map Prod.snd
  if 0 < needed_count then
    let nw :=
      allocRows cp.2
        ((List.range needed_count.toNat).map
          (file_random.fakeRow ω value_cfg header_types))
    (config_rows ++ nw.1, nw.2)
  else
    (config_rows, cp.2)

/-!  Shared lemmas about the header synthesis loop. -/

/-- A key returned by the redraw loop is not already present in the map. -/
theorem pickFresh_not_mem (ω : FakerOracle) (m : Headers) :
    ∀ fuel widx k w', file_random.pickFresh ω m fuel widx = some (k, w') →
      dictContains m k = false := by
  intro fuel
  induction fuel with
  | zero =>
    intro widx k w' h
    simp [file_random.pickFresh] at h
  | succ n ih =>
    intro widx k w' h
    by_cases hc : dictContains m (ω.word widx)
    · rw [file_random.pickFresh, if_pos hc] at h
      exact ih _ _ _ h
    · rw [file_random.pickFresh, if_neg hc] at h
      simp only [Option.some.injEq, Prod.mk.injEq] at h
      obtain ⟨rfl, -⟩ := h
      exact eq_false_of_ne_true hc

/-- Assigning an absent key appends it at the end of the dict. -/
theorem dictInsert_fresh (m : Headers) (k : String) (v : SupportedValueType)
    (h : dictContains m k = false) : dictInsert m k v = m ++ [(k, v)] := by
  simp [dictInsert, h]

/-- A key absent per `dictContains` is not among the dict's keys. -/
theorem dictContains_false_iff (m : Headers) (k : String) :
    dictContains m k = false ↔ k ∉ m.map Prod.fst := by
  rw [← Bool.not_eq_true]
  simp only [dictContains, List.any_eq_true, beq_iff_eq, List.mem_map,
    not_exists, not_and]

/-- The fill loop only appends `needed` fresh entries after the given map. -/
theorem fillHeaders_append (ω : FakerOracle) (fuel : Nat) :
    ∀ needed widx tidx m m',
      file_random.fillHeaders ω fuel needed widx tidx m = some m' →
      ∃ ext : Headers, m' = m ++ ext ∧ ext.length = needed := by
  intro needed
  induction needed with
  | zero =>
    intro widx tidx m m' h
    simp only [file_random.fillHeaders, Option.some.injEq] at h
    exact ⟨[], by simp [h], rfl⟩
  | succ n ih =>
    intro widx tidx m m' h
    rw [file_random.fillHeaders] at h
    cases hp : file_random.pickFresh ω m fuel widx with
    | none => rw [hp] at h; exact absurd h (by simp)
    | some kw =>
      obtain ⟨key, w'⟩ := kw
      rw [hp] at h
      simp only at h
      obtain ⟨ext, hext, hlen⟩ := ih _ _ _ _ h
      rw [dictInsert_fresh _ _ _ (pickFresh_not_mem ω m fuel widx key w' hp)]
        at hext
      refine ⟨(key,
        SUPPORTED_VALUE_TYPES.getD
          (ω.choice tidx % SUPPORTED_VALUE_TYPES.length) .uuid) :: ext,
        ?_, by simp [hlen]⟩
      rw [hext]
      simp

/-- The fill loop preserves key uniqueness: each inserted key is fresh. -/
theorem fillHeaders_nodup (ω : FakerOracle) (fuel : Nat) :
    ∀ needed widx tidx m m',
      (m.map Prod.fst).Nodup →
      file_random.fillHeaders ω fuel needed widx tidx m = some m' →
      (m'.map Prod.fst).Nodup := by
  intro needed
  induction needed with
  | zero =>
    intro widx tidx m m' hnd h
    simp only [file_random.fillHeaders, Option.some.injEq] at h
    exact h ▸ hnd
  | succ n ih =>
    intro widx tidx m m' hnd h
    rw [file_random.fillHeaders] at h
    cases hp : file_random.pickFresh ω m fuel widx with
    | none => rw [hp] at h; exact absurd h (by simp)
    | some kw =>
      obtain ⟨key, w'⟩ := kw
      rw [hp] at h
      simp only at h
      refine ih _ _ _ _ ?_ h
      have hfresh := pickFresh_not_mem ω m fuel widx key w' hp
      rw [dictInsert_fresh _ _ _ hfresh]
      rw [List.map_append, List.nodup_append]
      refine ⟨hnd, by simp, ?_⟩
      intro a ha hb
      simp only [List.map_cons, List.map_nil, List.mem_singleton] at hb
      rw [hb] at ha
      exact (dictContains_false_iff m key).mp hfresh ha

/-!  Claim theorems: config resolution. -/

/-- C6: `get_file_random_config` merges the override over the fixed default
`{decimal_places: 3, min_int: 0, max_int: 10000}` independently per field:
a present field (even one explicitly set to `0`) replaces the default, an
absent field falls back; an override supplying only `decimal_places` keeps
default `min_int` and `max_int`. -/
theorem get_file_random_config_merges_per_field :
    (∀ c : FileRandomConfigType,
      (DataCleaner.get_file_random_config (some c)).decimal_places
          = (match c.decimal_places with | some v => v | none => 3)
        ∧ (DataCleaner.get_file_random_config (some c)).min_int
          = (match c.min_int with | some v => v | none => 0)
        ∧ (DataCleaner.get_file_random_config (some c)).max_int
          = (match c.max_int with | some v => v | none => 10000))
    ∧ DataCleaner.get_file_random_config none = ⟨3, 0, 10000⟩
    ∧ (∀ d : Int,
        DataCleaner.get_file_random_config (some ⟨some d, none, none⟩)
          = ⟨d, 0, 10000⟩)
    ∧ DataCleaner.get_file_random_config (some ⟨some 0, some 0, some 0⟩)
        = ⟨0, 0, 0⟩ := by
  refine ⟨fun c => ⟨?_, ?_, ?_⟩, rfl, fun d => rfl, rfl⟩ <;>
    cases c <;>
    rename_i dp mi ma <;>
    first
      | (cases dp <;> rfl)
      | (cases mi <;> rfl)
      | (cases ma <;> rfl)

/-- C9: config resolution is idempotent — resolving an already resolved
config (all of whose fields are present) changes nothing. -/
theorem get_file_random_config_idempotent
    (cfg : Option FileRandomConfigType) :
    DataCleaner.get_file_random_config
        (some (DataCleaner.toPartialConfig
          (DataCleaner.get_file_random_config cfg)))
      = DataCleaner.get_file_random_config cfg := by
  cases cfg <;> rfl

/-- C10: at the public interface a total count of exactly `0` is treated
the same as omitting the argument — both `DataCleaner.generate_fake_headers`
and `DataCleaner.generate_fake_rows` then draw the random fallback total,
because the count is combined with the fallback by Python truthiness. -/
theorem zero_total_treated_as_omitted :
    (∀ (ω : FakerOracle) (fuel : Nat) (d : Option Headers),
        DataCleaner.generate_fake_headers ω fuel (some 0) d
          = DataCleaner.generate_fake_headers ω fuel none d)
    ∧ (∀ (ω : FakerOracle) (h : Headers) (rs : Option (List Row))
        (cfg : Option FileRandomConfigType),
        DataCleaner.generate_fake_rows ω h rs (some 0) cfg
          = DataCleaner.generate_fake_rows ω h rs none cfg) :=
  ⟨fun _ _ _ => rfl, fun _ _ _ _ => rfl⟩

/-- A concrete oracle used to instantiate the claim theorems: the word
stream enumerates distinct words, `randint` returns the upper bound, and
`choice` picks index 0. -/
def testOracle : FakerOracle where
  boolean := fun _ => true
  color_name := fun _ => "red"
  date := fun _ => "2020-01-01"
  email := fun _ => "a@b.c"
  name := fun _ => "Ann"
  password := fun _ => "pw"
  word := fun i => "w" ++ toString i
  user_name := fun _ => "ann"
  uuid4 := fun _ => "u"
  random := fun _ => 0
  randint := fun _ _ b => b
  choice := fun _ => 0

/-!  Claim theorems: header synthesis. -/

/-- C1: whenever `total_columns` is at least the number of default
headers and the redraw loop terminates within the fuel bound,
`generate_fake_headers` returns a header map of size exactly
`total_columns` in which every default pair appears with its original
value-type tag. -/
theorem generate_fake_headers_size_and_defaults (ω : FakerOracle)
    (fuel : Nat) (total_columns : Int) (default_headers m : Headers)
    (hge : (default_headers.length : Int) ≤ total_columns)
    (hres : file_random.generate_fake_headers ω fuel total_columns
        default_headers = some m) :
    (m.length : Int) = total_columns ∧ ∀ p ∈ default_headers, p ∈ m := by
  rw [file_random.generate_fake_headers] at hres
  by_cases h0 : (0 : Int) < total_columns - default_headers.length
  · rw [if_pos h0] at hres
    obtain ⟨ext, rfl, hlen⟩ := fillHeaders_append ω fuel _ 0 0 _ m hres
    constructor
    · rw [List.length_append, hlen]
      omega
    · intro p hp
      exact List.mem_append_left _ hp
  · rw [if_neg h0] at hres
    simp only [Option.some.injEq] at hres
    subst hres
    exact ⟨by omega, fun p hp => hp⟩

/-- C1 witness: at `total_columns = 2` over one default header, the
result has exactly two entries and keeps the default pair. -/
theorem generate_fake_headers_size_and_defaults_witness :
    ((([("id", SupportedValueType.uuid)] : Headers).length : Int) ≤ 2
      ∧ file_random.generate_fake_headers testOracle 3 2
          [("id", SupportedValueType.uuid)]
        = some [("id", SupportedValueType.uuid),
                ("w0", SupportedValueType.boolean)])
    ∧ (([("id", SupportedValueType.uuid),
         ("w0", SupportedValueType.boolean)] : Headers).length : Int) = 2
      ∧ ∀ p ∈ ([("id", SupportedValueType.uuid)] : Headers),
          p ∈ ([("id", SupportedValueType.uuid),
                ("w0", SupportedValueType.boolean)] : Headers) :=
  ⟨⟨by decide, by decide⟩,
    generate_fake_headers_size_and_defaults testOracle 3 2
      [("id", SupportedValueType.uuid)]
      [("id", SupportedValueType.uuid), ("w0", SupportedValueType.boolean)]
      (by decide) (by decide)⟩

/-- C5: for any input whose default keys are unique, the header map
returned by `generate_fake_headers` contains no duplicate keys: every
randomly drawn candidate already present is redrawn until fresh. -/
theorem generate_fake_headers_keys_nodup (ω : FakerOracle)
    (fuel : Nat) (total_columns : Int) (default_headers m : Headers)
    (hnd : (default_headers.map Prod.fst).Nodup)
    (hres : file_random.generate_fake_headers ω fuel total_columns
        default_headers = some m) :
    (m.map Prod.fst).Nodup := by
  rw [file_random.generate_fake_headers] at hres
  by_cases h0 : (0 : Int) < total_columns - default_headers.length
  · rw [if_pos h0] at hres
    exact fillHeaders_nodup ω fuel _ 0 0 _ m hnd hres
  · rw [if_neg h0] at hres
    simp only [Option.some.injEq] at hres
    exact hres ▸ hnd

/-- C5 witness: a concrete run at `total_columns = 3` over one default
header yields pairwise-distinct keys. -/
theorem generate_fake_headers_keys_nodup_witness :
    ((([("id", SupportedValueType.uuid)] : Headers).map Prod.fst).Nodup
      ∧ file_random.generate_fake_headers testOracle 3 3
          [("id", SupportedValueType.uuid)]
        = some [("id", SupportedValueType.uuid),
                ("w0", SupportedValueType.boolean),
                ("w1", SupportedValueType.boolean)])
    ∧ (([("id", SupportedValueType.uuid),
         ("w0", SupportedValueType.boolean),
         ("w1", SupportedValueType.boolean)] : Headers).map Prod.fst).Nodup :=
  ⟨⟨by decide, by decide⟩,
    generate_fake_headers_keys_nodup testOracle 3 3
      [("id", SupportedValueType.uuid)]
      [("id", SupportedValueType.uuid), ("w0", SupportedValueType.boolean),
       ("w1", SupportedValueType.boolean)]
      (by decide) (by decide)⟩

/-- C3 counterexample: at the public interface, `total_columns = 0` with
empty defaults (so `0 ≤ count(default_headers)`) does not return the
defaults unchanged — the falsy `0` triggers the `random.randint(0, 5)`
fallback (here drawing 5) and fresh headers are generated. -/
theorem generate_fake_headers_zero_not_defaults :
    DataCleaner.generate_fake_headers testOracle 10 (some 0) (some [])
      ≠ some ([] : Headers) := by
  decide

/-- C3 amended: for every nonzero `total_columns` at most the number of
default headers (negatives included), `DataCleaner.generate_fake_headers`
returns the default headers exactly; `total_columns = 0` is excluded
because Python truthiness routes it to the random fallback. -/
theorem generate_fake_headers_le_defaults (ω : FakerOracle) (fuel : Nat)
    (t : Int) (d : Headers) (hnz : t ≠ 0)
    (hle : t ≤ (d.length : Int)) :
    DataCleaner.generate_fake_headers ω fuel (some t) (some d) = some d := by
  rw [DataCleaner.generate_fake_headers]
  simp only [pyOrInt, if_neg hnz]
  rw [file_random.generate_fake_headers]
  rw [if_neg (by omega)]

/-- C3 amended witness: a negative total returns the defaults as-is. -/
theorem generate_fake_headers_le_defaults_witness :
    ((-1 : Int) ≠ 0 ∧ (-1 : Int) ≤ (([("id", SupportedValueType.uuid)] :
        Headers).length : Int))
    ∧ DataCleaner.generate_fake_headers testOracle 1 (some (-1))
        (some [("id", SupportedValueType.uuid)])
      = some [("id", SupportedValueType.uuid)] :=
  ⟨⟨by decide, by decide⟩,
    generate_fake_headers_le_defaults testOracle 1 (-1)
      [("id", SupportedValueType.uuid)] (by decide) (by decide)⟩

/-- C4 counterexample: at the public interface, `total_rows = 0` with an
empty default-row list (so `0 ≤ count(default_rows)`) does not return the
default rows unchanged — the falsy `0` triggers the `random.randint(1, 5)`
fallback (here drawing 5) and fresh rows are generated. -/
theorem generate_fake_rows_zero_not_defaults :
    DataCleaner.generate_fake_rows testOracle [] (some []) (some 0) none
      ≠ ([] : List Row) := by
  decide

/-- C4 amended: for every nonzero `total_rows` at most the number of
default rows, `DataCleaner.generate_fake_rows` returns the supplied
default rows exactly, in order; `total_rows = 0` is excluded because
Python truthiness routes it to the random fallback. -/
theorem generate_fake_rows_le_defaults (ω : FakerOracle)
    (headers : Headers) (rs : List Row) (t : Int)
    (cfg : Option FileRandomConfigType) (hnz : t ≠ 0)
    (hle : t ≤ (rs.length : Int)) :
    DataCleaner.generate_fake_rows ω headers (some rs) (some t) cfg = rs := by
  have hcopy : rs.map (fun r : Row => r.map (fun v => v)) = rs := by simp
  rw [DataCleaner.generate_fake_rows]
  simp only [pyOrInt, if_neg hnz, hcopy]
  rw [file_random.generate_fake_rows]
  rw [if_neg (by omega)]

/-- C4 amended witness: a total equal to the default-row count returns
the default rows exactly. -/
theorem generate_fake_rows_le_defaults_witness :
    ((1 : Int) ≠ 0 ∧ (1 : Int) ≤ (([[PyValue.int 7]] : List Row).length : Int))
    ∧ DataCleaner.generate_fake_rows testOracle [("a", SupportedValueType.int)]
        (some [[PyValue.int 7]]) (some 1) none
      = [[PyValue.int 7]] :=
  ⟨⟨by decide, by decide⟩,
    generate_fake_rows_le_defaults testOracle [("a", SupportedValueType.int)]
      [[PyValue.int 7]] 1 none (by decide) (by decide)⟩

/-!  Claim theorems: row synthesis. -/

/-- C2: whenever `total_rows` is at least the number of default rows,
`generate_fake_rows` returns exactly `total_rows` rows; the first
`count(default_rows)` entries are the supplied rows in order, the rest are
the freshly generated rows, and every generated row has one value per
header, generated from that column's value-type tag in the header map's
insertion order. -/
theorem generate_fake_rows_count_prefix_shape (ω : FakerOracle)
    (headers : Headers) (default_rows : List Row) (total_rows : Int)
    (cfg : ConfigType)
    (hge : (default_rows.length : Int) ≤ total_rows) :
    (((file_random.generate_fake_rows ω headers default_rows total_rows
        cfg).length : Int) = total_rows)
    ∧ (file_random.generate_fake_rows ω headers default_rows total_rows
        cfg).take default_rows.length = default_rows
    ∧ (file_random.generate_fake_rows ω headers default_rows total_rows
        cfg).drop default_rows.length
      = (List.range (total_rows - default_rows.length).toNat).map
          (file_random.fakeRow ω cfg (headers.map Prod.snd))
    ∧ (∀ r, (file_random.fakeRow ω cfg (headers.map Prod.snd) r).length
        = headers.length)
    ∧ ∀ r j, ∀ hj : j < headers.length,
        (file_random.fakeRow ω cfg (headers.map Prod.snd) r).get? j
          = some (file_random.generate_fake_value ω
              (r * headers.length + j) (headers.get ⟨j, hj⟩).2 cfg) := by
  have hrowlen : ∀ r, (file_random.fakeRow ω cfg (headers.map Prod.snd)
      r).length = headers.length := by
    intro r
    simp [file_random.fakeRow]
  have hrowget : ∀ r j, ∀ hj : j < headers.length,
      (file_random.fakeRow ω cfg (headers.map Prod.snd) r).get? j
        = some (file_random.generate_fake_value ω
            (r * headers.length + j) (headers.get ⟨j, hj⟩).2 cfg) := by
    intro r j hj
    have hj2 : j < (headers.map Prod.snd).length := by simpa using hj
    rw [file_random.fakeRow, List.get?_map, List.get?_enum,
      List.get?_eq_get hj2]
    simp [List.get_map_rev]
  rw [file_random.generate_fake_rows]
  by_cases h0 : (0 : Int) < total_rows - default_rows.length
  · rw [if_pos h0]
    refine ⟨?_, ?_, ?_, hrowlen, hrowget⟩
    · rw [List.length_append, List.length_map, List.length_range]
      omega
    · rw [List.take_left]
    · rw [List.drop_left]
  · rw [if_neg h0]
    refine ⟨by omega, List.take_length _, ?_, hrowlen, hrowget⟩
    rw [show (total_rows - (default_rows.length : Int)).toNat = 0 by omega]
    simp

/-- C2 witness: a concrete run over two headers and one default row with
`total_rows = 2` yields exactly 2 rows. -/
theorem generate_fake_rows_count_prefix_shape_witness :
    ((([[PyValue.int 1, PyValue.bool true]] : List Row).length : Int) ≤ 2)
    ∧ ((file_random.generate_fake_rows testOracle
          [("a", SupportedValueType.int), ("b", SupportedValueType.boolean)]
          [[PyValue.int 1, PyValue.bool true]] 2 ⟨3, 0, 10000⟩).length : Int)
        = 2 :=
  ⟨by decide,
    (generate_fake_rows_count_prefix_shape testOracle
      [("a", SupportedValueType.int), ("b", SupportedValueType.boolean)]
      [[PyValue.int 1, PyValue.bool true]] 2 ⟨3, 0, 10000⟩ (by decide)).1⟩

/-!  Claim theorems: file-type support. -/

/-- C7: for every path whose (case-insensitively matched) extension is not
`csv`, `json` or `text`, both `load_file` and `write_file` fail with the
unsupported-file-type error carrying the offending extension, and for
supported extensions that error is not raised. -/
theorem load_write_unsupported_extension {α : Type} (path : String)
    (data : α) (cfgL : Option file_loader.LoadFileConfigParamType)
    (cfgW : Option file_loader.WriteFileConfigParamType) :
    (file_loader.fileExtension path ∉ SUPPORTED_FILE_TYPES →
      file_loader.load_file path cfgL
          = .error ("The file type " ++ file_loader.fileExtension path
              ++ " is not supported")
        ∧ file_loader.write_file path data cfgW
          = .error ("The file type " ++ file_loader.fileExtension path
              ++ " is not supported"))
    ∧ (file_loader.fileExtension path ∈ SUPPORTED_FILE_TYPES →
      (∃ a, file_loader.load_file path cfgL = .ok a)
        ∧ ∃ a, file_loader.write_file path data cfgW = .ok a) := by
  constructor
  · intro h
    have hc : file_loader.check_file_support path
        = .error ("The file type " ++ file_loader.fileExtension path
            ++ " is not supported") := by
      rw [file_loader.check_file_support, if_pos]
      simpa using h
    constructor
    · rw [file_loader.load_file, hc]
    · rw [file_loader.write_file, hc]
  · intro h
    have hc : file_loader.check_file_support path
        = .ok (file_loader.fileExtension path) := by
      rw [file_loader.check_file_support, if_neg]
      simpa using h
    constructor
    · simp only [file_loader.load_file, hc]
      by_cases hj : file_loader.fileExtension path = "json"
      · rw [if_pos hj]
        exact ⟨_, rfl⟩
      · rw [if_neg hj]
        exact ⟨_, rfl⟩
    · simp only [file_loader.write_file, hc]
      by_cases hj : file_loader.fileExtension path = "json"
      · rw [if_pos hj]
        exact ⟨_, rfl⟩
      · rw [if_neg hj]
        exact ⟨_, rfl⟩

/-- C7 witness: loading or writing `data.xml` fails with the
unsupported-file-type error naming extension `xml`, while `data.CSV`
(case-insensitive match) loads without that error. -/
theorem load_write_unsupported_extension_witness :
    (file_loader.fileExtension "data.xml" ∉ SUPPORTED_FILE_TYPES
      ∧ file_loader.load_file "data.xml" none
          = .error "The file type xml is not supported"
      ∧ file_loader.write_file "data.xml" (0 : Nat) none
          = .error "The file type xml is not supported")
    ∧ (file_loader.fileExtension "data.CSV" ∈ SUPPORTED_FILE_TYPES
      ∧ ∃ a, file_loader.load_file "data.CSV" none = .ok a) :=
  ⟨⟨by decide,
    (load_write_unsupported_extension "data.xml" (0 : Nat) none none).1
      (by decide)⟩,
   ⟨by decide,
    ((load_write_unsupported_extension "data.CSV" (0 : Nat) none none).2
      (by decide)).1⟩⟩

/-!  Shared lemmas for the store-based frame theorem. -/

/-- Reads below the old length are unchanged by appending to the store. -/
theorem readRow_extend {s s' : RowStore} {ext : List Row}
    (h : s'.rows = s.rows ++ ext) {a : Nat} (ha : a < s.rows.length) :
    readRow s' a = readRow s a := by
  rw [readRow, readRow, h, List.getD_append _ _ _ _ ha]

/-- Allocating a batch of rows only appends objects: the store is
extended, the headers slot is untouched, and every returned address is
fresh. -/
theorem allocRows_spec : ∀ (rs : List Row) (s : RowStore),
    (allocRows s rs).2.rows = s.rows ++ rs
    ∧ (allocRows s rs).2.headers = s.headers
    ∧ ∀ b ∈ (allocRows s rs).1, s.rows.length ≤ b := by
  intro rs
  induction rs with
  | nil =>
    intro s
    exact ⟨by simp [allocRows], rfl, by simp [allocRows]⟩
  | cons r rest ih =>
    intro s
    have hrows1 : (allocRow s r).2.rows = s.rows ++ [r] := rfl
    have haddr : (allocRow s r).1 = s.rows.length := rfl
    have hlen1 : (allocRow s r).2.rows.length = s.rows.length + 1 := by
      rw [hrows1]
      simp
    obtain ⟨h1, h2, h3⟩ := ih (allocRow s r).2
    refine ⟨?_, h2, ?_⟩
    · rw [allocRows]
      simp only
      rw [h1, hrows1]
      simp
    · intro b hb
      rw [allocRows] at hb
      simp only [List.mem_cons] at hb
      rcases hb with rfl | hb
      · rw [haddr]
      · have := h3 b hb
        rw [hlen1] at this
        omega

/-- Copying the rows named by valid addresses only appends the copies:
the store is extended, headers untouched, the returned addresses are
fresh and valid, and they read back the copied values. -/
theorem copyRows_spec : ∀ (as : List Nat) (s : RowStore),
    (∀ a ∈ as, a < s.rows.length) →
    (copyRows s as).2.rows = s.rows ++ as.map (readRow s)
    ∧ (copyRows s as).2.headers = s.headers
    ∧ (copyRows s as).1.length = as.length
    ∧ (∀ b ∈ (copyRows s as).1,
        s.rows.length ≤ b ∧ b < (copyRows s as).2.rows.length)
    ∧ (copyRows s as).1.map (readRow (copyRows s as).2)
      = as.map (readRow s) := by
  intro as
  induction as with
  | nil =>
    intro s _
    exact ⟨by simp [copyRows], rfl, rfl, by simp [copyRows], by simp [copyRows]⟩
  | cons a rest ih =>
    intro s hval
    have ha : a < s.rows.length := hval a (List.mem_cons_self a rest)
    have hrows1 : (allocRow s (readRow s a)).2.rows
        = s.rows ++ [readRow s a] := rfl
    have haddr : (allocRow s (readRow s a)).1 = s.rows.length := rfl
    have hlen1 : (allocRow s (readRow s a)).2.rows.length
        = s.rows.length + 1 := by
      rw [hrows1]
      simp
    have hval2 : ∀ b ∈ rest, b < (allocRow s (readRow s a)).2.rows.length := by
      intro b hb
      have := hval b (List.mem_cons_of_mem a hb)
      rw [hlen1]
      omega
    obtain ⟨h1, h2, h3, h4, h5⟩ := ih (allocRow s (readRow s a)).2 hval2
    have hstable : ∀ b ∈ rest, readRow (allocRow s (readRow s a)).2 b
        = readRow s b := by
      intro b hb
      exact readRow_extend hrows1 (hval b (List.mem_cons_of_mem a hb))
    have hcons : copyRows s (a :: rest)
        = ((allocRow s (readRow s a)).1 :: (copyRows (allocRow s (readRow s a)).2 rest).1,
           (copyRows (allocRow s (readRow s a)).2 rest).2) := rfl
    rw [hcons]
    refine ⟨?_, h2, ?_, ?_, ?_⟩
    · rw [h1, hrows1]
      simp [List.map_congr_left hstable]
    · simp [h3]
    · intro b hb
      simp only [List.mem_cons] at hb
      have hlen2 : (copyRows (allocRow s (readRow s a)).2 rest).2.rows.length
          = (allocRow s (readRow s a)).2.rows.length + rest.length := by
        rw [h1]
        simp
      rcases hb with rfl | hb
      · rw [haddr, hlen2, hlen1]
        omega
      · obtain ⟨hb1, hb2⟩ := h4 b hb
        rw [hlen1] at hb1
        exact ⟨by omega, hb2⟩
    · simp only [List.map_cons]
      have hfst : readRow (copyRows (allocRow s (readRow s a)).2 rest).2
          (allocRow s (readRow s a)).1 = readRow s a := by
        have hx : (allocRow s (readRow s a)).1
            < (allocRow s (readRow s a)).2.rows.length := by
          rw [hlen1, haddr]
          omega
        rw [readRow_extend h1 hx, readRow, hrows1, haddr]
        rw [List.getD_append_right _ _ _ _ (Nat.le_refl _)]
        simp
      rw [hfst, h5, List.map_congr_left hstable]

/-!  Claim theorems: frame property of row synthesis. -/

/-- C8: `DataCleaner.generate_fake_rows` never mutates its inputs. Over
the object store, every pre-existing row object reads the same after the
call, the headers object is untouched (only read), and the working set
starts with fresh copies — addresses disjoint from the caller's row
addresses — that read back exactly the caller's row values. -/
theorem generate_fake_rows_heap_frame (ω : FakerOracle) (as : List Nat)
    (total_rows : Option Int) (cfg : Option FileRandomConfigType)
    (s : RowStore) (hval : ∀ a ∈ as, a < s.rows.length) :
    (∀ a, a < s.rows.length →
      readRow (DataCleaner.generate_fake_rows_heap ω (some as) total_rows
        cfg s).2 a = readRow s a)
    ∧ (DataCleaner.generate_fake_rows_heap ω (some as) total_rows
        cfg s).2.headers = s.headers
    ∧ (∀ b ∈ ((DataCleaner.generate_fake_rows_heap ω (some as) total_rows
        cfg s).1.take as.length), b ∉ as)
    ∧ ((DataCleaner.generate_fake_rows_heap ω (some as) total_rows
        cfg s).1.take as.length).map
        (readRow (DataCleaner.generate_fake_rows_heap ω (some as) total_rows
          cfg s).2)
      = as.map (readRow s) := by
  obtain ⟨hc1, hc2, hc3, hc4, hc5⟩ := copyRows_spec as s hval
  by_cases hneed : (0 : Int) < pyOrInt total_rows (ω.randint 0 1 5)
      - ((copyRows s as).1.length : Int)
  · simp only [DataCleaner.generate_fake_rows_heap, if_pos hneed]
    obtain ⟨ha1, ha2, ha3⟩ := allocRows_spec
      ((List.range (pyOrInt total_rows (ω.randint 0 1 5)
          - ((copyRows s as).1.length : Int)).toNat).map
        (file_random.fakeRow ω (DataCleaner.get_file_random_config cfg)
          ((copyRows s as).2.headers.map Prod.snd)))
      (copyRows s as).2
    have hext : (allocRows (copyRows s as).2
        ((List.range (pyOrInt total_rows (ω.randint 0 1 5)
            - ((copyRows s as).1.length : Int)).toNat).map
          (file_random.fakeRow ω (DataCleaner.get_file_random_config cfg)
            ((copyRows s as).2.headers.map Prod.snd)))).2.rows
        = s.rows ++ (as.map (readRow s)
            ++ (List.range (pyOrInt total_rows (ω.randint 0 1 5)
                - ((copyRows s as).1.length : Int)).toNat).map
              (file_random.fakeRow ω (DataCleaner.get_file_random_config cfg)
                ((copyRows s as).2.headers.map Prod.snd))) := by
      rw [ha1, hc1, List.append_assoc]
    have htake : ((copyRows s as).1
        ++ (allocRows (copyRows s as).2
          ((List.range (pyOrInt total_rows (ω.randint 0 1 5)
              - ((copyRows s as).1.length : Int)).toNat).map
            (file_random.fakeRow ω (DataCleaner.get_file_random_config cfg)
              ((copyRows s as).2.headers.map Prod.snd)))).1).take as.length
        = (copyRows s as).1 := by
      rw [← hc3, List.take_left]
    refine ⟨?_, ?_, ?_, ?_⟩
    · intro a haa
      exact readRow_extend hext haa
    · rw [ha2, hc2]
    · rw [htake]
      intro b hb hbas
      have := (hc4 b hb).1
      have := hval b hbas
      omega
    · rw [htake]
      have hstable : ∀ b ∈ (copyRows s as).1,
          readRow (allocRows (copyRows s as).2
            ((List.range (pyOrInt total_rows (ω.randint 0 1 5)
                - ((copyRows s as).1.length : Int)).toNat).map
              (file_random.fakeRow ω (DataCleaner.get_file_random_config cfg)
                ((copyRows s as).2.headers.map Prod.snd)))).2 b
            = readRow (copyRows s as).2 b := by
        intro b hb
        exact readRow_extend ha1 (hc4 b hb).2
      rw [List.map_congr_left hstable, hc5]
  · simp only [DataCleaner.generate_fake_rows_heap, if_neg hneed]
    have htake : ((copyRows s as).1).take as.length = (copyRows s as).1 :=
      List.take_of_length_le (by rw [hc3])
    refine ⟨?_, hc2, ?_, ?_⟩
    · intro a haa
      exact readRow_extend hc1 haa
    · rw [htake]
      intro b hb hbas
      have := (hc4 b hb).1
      have := hval b hbas
      omega
    · rw [htake, hc5]

/-- C8 witness: a concrete store with one caller row, run at total 3. -/
theorem generate_fake_rows_heap_frame_witness :
    (∀ a ∈ [0], a < (RowStore.mk [[PyValue.int 7]]
        [("a", SupportedValueType.int)]).rows.length)
    ∧ ((DataCleaner.generate_fake_rows_heap testOracle (some [0]) (some 3)
        none (RowStore.mk [[PyValue.int 7]]
          [("a", SupportedValueType.int)])).1.take 1).map
        (readRow (DataCleaner.generate_fake_rows_heap testOracle (some [0])
          (some 3) none (RowStore.mk [[PyValue.int 7]]
            [("a", SupportedValueType.int)])).2)
      = [0].map (readRow (RowStore.mk [[PyValue.int 7]]
          [("a", SupportedValueType.int)])) :=
  ⟨by decide,
    ((generate_fake_rows_heap_frame testOracle [0] (some 3) none
      (RowStore.mk [[PyValue.int 7]] [("a", SupportedValueType.int)])
      (by decide)).2.2.2 : _)⟩
